import Mathlib

/-!
Verification of the schema-inference core of `castor.py`.

The embedding covers the pure core of the addon: the compiled format
patterns, `type_name`, `match_data_type`, `generate_schema` and
`generate_schema_text`.  The mitmproxy glue (content views, flow hooks,
environment variables, file output) performs I/O only and is outside the
embedded core.

Python regular expressions are embedded as an explicit regex syntax `Rx`
with a Brzozowski-derivative matcher.  Every source pattern is anchored at
both ends except the final catch-all `regex_pattern`, whose Python source
has no anchors; `re.match` anchors at the start only, so that pattern is
checked with the start-anchored matcher `Rx.matchesStart` while the others
use the whole-string matcher `Rx.accepts`.
-/

namespace Castor

/-- Syntax of the regular expressions used by the source: character
classes, concatenation, alternation and Kleene star.  `eps` accepts the
empty string, `fail` accepts nothing. -/
inductive Rx where
  | eps : Rx
  | fail : Rx
  | cls (p : Char → Bool) : Rx
  | seq (a b : Rx) : Rx
  | alt (a b : Rx) : Rx
  | star (a : Rx) : Rx

namespace Rx

/-- Concatenation smart constructor; keeps derivatives small. -/
def sseq : Rx → Rx → Rx
  | .fail, _ => .fail
  | _, .fail => .fail
  | .eps, b => b
  | a, .eps => a
  | a, b => .seq a b

/-- Alternation smart constructor; keeps derivatives small. -/
def salt : Rx → Rx → Rx
  | .fail, b => b
  | a, .fail => a
  | a, b => .alt a b

/-- Does the expression accept the empty string? -/
def nullable : Rx → Bool
  | .eps => true
  | .fail => false
  | .cls _ => false
  | .seq a b => nullable a && nullable b
  | .alt a b => nullable a || nullable b
  | .star _ => true

/-- Brzozowski derivative with respect to one character. -/
def deriv (c : Char) : Rx → Rx
  | .eps => .fail
  | .fail => .fail
  | .cls p => if p c then .eps else .fail
  | .seq a b =>
      if nullable a then salt (sseq (deriv c a) b) (deriv c b)
      else sseq (deriv c a) b
  | .alt a b => salt (deriv c a) (deriv c b)
  | .star a => sseq (deriv c a) (.star a)

/-- Whole-string acceptance: the semantics of `re.match` for a pattern
anchored on both sides. -/
def accepts (r : Rx) : List Char → Bool
  | [] => nullable r
  | c :: cs => accepts (deriv c r) cs

/-- Start-anchored acceptance: the semantics of bare `re.match`, which
succeeds when some leading segment of the input matches. -/
def matchesStart (r : Rx) : List Char → Bool
  | [] => nullable r
  | c :: cs => nullable r || matchesStart (deriv c r) cs

/-- A single literal character. -/
def chr (c : Char) : Rx := .cls (fun x => x == c)

/-- Exactly `n` copies of `r`. -/
def rep (r : Rx) : Nat → Rx
  | 0 => .eps
  | n + 1 => .seq r (rep r n)

/-- One or more copies of `r`. -/
def plus (r : Rx) : Rx := .seq r (.star r)

/-- Zero or one copy of `r`. -/
def opt (r : Rx) : Rx := .alt r .eps

/-- Concatenation of a list of expressions. -/
def seqs (l : List Rx) : Rx := l.foldr .seq .eps

end Rx

/-- Class of the Python `\d`: a decimal digit. -/
def isDigitChar (c : Char) : Bool := c.isDigit

/-- Class `[a-zA-Z]`. -/
def isAlphaChar (c : Char) : Bool := c.isAlpha

/-- Class `[a-fA-F0-9]`. -/
def isHexChar (c : Char) : Bool :=
  c.isDigit || (97 ≤ c.toNat && c.toNat ≤ 102) || (65 ≤ c.toNat && c.toNat ≤ 70)

/-- Class `[a-fA-F0-9:]`. -/
def isHexColonChar (c : Char) : Bool := isHexChar c || c == ':'

/-- Class `[a-zA-Z0-9._%+-]`, the local part of the email patterns. -/
def isEmailLocalChar (c : Char) : Bool :=
  c.isAlpha || c.isDigit || c == '.' || c == '_' || c == '%' || c == '+' || c == '-'

/-- Class `[a-zA-Z0-9.-]`, the domain part of the email patterns. -/
def isEmailDomainChar (c : Char) : Bool :=
  c.isAlpha || c.isDigit || c == '.' || c == '-'

/-- Class of the URI patterns: letters, digits and the punctuation listed
in the source class (code 39 is the apostrophe). -/
def isUriChar (c : Char) : Bool :=
  c.isAlpha || c.isDigit || c == ':' || c == '/' || c == '?' || c == '#' ||
    c == '[' || c == ']' || c == '@' || c == '!' || c == '$' || c == '&' ||
    c.toNat == 39 || c == '(' || c == ')' || c == '*' || c == '+' || c == ',' ||
    c == ';' || c == '=' || c == '.' || c == '_' || c == '%' || c == '-'

/-- Class of the Python `\s` (its ASCII members: space, tab, newline,
carriage return, vertical tab, form feed). -/
def isSpaceChar (c : Char) : Bool :=
  c == ' ' || c == '\t' || c == '\n' || c == '\r' || c.toNat == 11 || c.toNat == 12

/-- Class of the IRI patterns `[^\x00-\x1F\x7F-\x9F\s]`: no control
characters and no whitespace. -/
def isIriChar (c : Char) : Bool :=
  !(c.toNat ≤ 31 || (127 ≤ c.toNat && c.toNat ≤ 159) || isSpaceChar c)

/-- Any character except a newline: the Python `.`. -/
def isAnyChar (c : Char) : Bool := !(c == '\n')

/-- Any character other than a slash: the class `[^/]`. -/
def isNonSlashChar (c : Char) : Bool := !(c == '/')

/-- A decimal digit, as an expression. -/
def digitRx : Rx := Rx.cls isDigitChar

/-- A letter, as an expression. -/
def alphaRx : Rx := Rx.cls isAlphaChar

/-- A hexadecimal digit, as an expression. -/
def hexRx : Rx := Rx.cls isHexChar

/-- Source pattern `^\d{4}-\d{2}-\d{2}T\d{2}:\d{2}:\d{2}$`. -/
def date_time_pattern : Rx :=
  Rx.seqs [Rx.rep digitRx 4, Rx.chr '-', Rx.rep digitRx 2, Rx.chr '-',
    Rx.rep digitRx 2, Rx.chr 'T', Rx.rep digitRx 2, Rx.chr ':',
    Rx.rep digitRx 2, Rx.chr ':', Rx.rep digitRx 2]

/-- Source pattern `^\d{2}:\d{2}:\d{2}$`. -/
def time_pattern : Rx :=
  Rx.seqs [Rx.rep digitRx 2, Rx.chr ':', Rx.rep digitRx 2, Rx.chr ':',
    Rx.rep digitRx 2]

/-- Source pattern `^\d{4}-\d{2}-\d{2}$`. -/
def date_pattern : Rx :=
  Rx.seqs [Rx.rep digitRx 4, Rx.chr '-', Rx.rep digitRx 2, Rx.chr '-',
    Rx.rep digitRx 2]

/-- Source pattern
`^P(?:\d+Y)?(?:\d+M(?:\d+D)?)?(?:T\d+H)?(?:\d+M)?(?:\d+S)?$`. -/
def duration_pattern : Rx :=
  Rx.seqs [Rx.chr 'P',
    Rx.opt (Rx.seq (Rx.plus digitRx) (Rx.chr 'Y')),
    Rx.opt (Rx.seqs [Rx.plus digitRx, Rx.chr 'M',
      Rx.opt (Rx.seq (Rx.plus digitRx) (Rx.chr 'D'))]),
    Rx.opt (Rx.seqs [Rx.chr 'T', Rx.plus digitRx, Rx.chr 'H']),
    Rx.opt (Rx.seq (Rx.plus digitRx) (Rx.chr 'M')),
    Rx.opt (Rx.seq (Rx.plus digitRx) (Rx.chr 'S'))]

/-- Source pattern `^[a-zA-Z0-9._%+-]+@[a-zA-Z0-9.-]+\.[a-zA-Z]{2,}$`. -/
def email_pattern : Rx :=
  Rx.seqs [Rx.plus (Rx.cls isEmailLocalChar), Rx.chr '@',
    Rx.plus (Rx.cls isEmailDomainChar), Rx.chr '.',
    alphaRx, alphaRx, Rx.star alphaRx]

/-- Source pattern for idn-email: textually identical to `email_pattern`
in the source. -/
def idn_email_pattern : Rx :=
  Rx.seqs [Rx.plus (Rx.cls isEmailLocalChar), Rx.chr '@',
    Rx.plus (Rx.cls isEmailDomainChar), Rx.chr '.',
    alphaRx, alphaRx, Rx.star alphaRx]

/-- One to three digits, the group `\d{1,3}`. -/
def digit13Rx : Rx := Rx.seq digitRx (Rx.opt (Rx.seq digitRx (Rx.opt digitRx)))

/-- Source pattern `^\d{1,3}\.\d{1,3}\.\d{1,3}\.\d{1,3}$`. -/
def ipv4_pattern : Rx :=
  Rx.seqs [digit13Rx, Rx.chr '.', digit13Rx, Rx.chr '.', digit13Rx,
    Rx.chr '.', digit13Rx]

/-- Source pattern `^[a-fA-F0-9:]+$`. -/
def ipv6_pattern : Rx := Rx.plus (Rx.cls isHexColonChar)

/-- Source pattern for the canonical 8-4-4-4-12 hex UUID grouping. -/
def uuid_pattern : Rx :=
  Rx.seqs [Rx.rep hexRx 8, Rx.chr '-', Rx.rep hexRx 4, Rx.chr '-',
    Rx.rep hexRx 4, Rx.chr '-', Rx.rep hexRx 4, Rx.chr '-', Rx.rep hexRx 12]

/-- Source pattern: one or more characters of the broad URI class. -/
def uri_pattern : Rx := Rx.plus (Rx.cls isUriChar)

/-- Source pattern for uri-reference: textually identical to
`uri_pattern` in the source. -/
def uri_reference_pattern : Rx := Rx.plus (Rx.cls isUriChar)

/-- Source pattern `^[^\x00-\x1F\x7F-\x9F\s]+$`. -/
def iri_pattern : Rx := Rx.plus (Rx.cls isIriChar)

/-- Source pattern for iri-reference: textually identical to
`iri_pattern` in the source. -/
def iri_reference_pattern : Rx := Rx.plus (Rx.cls isIriChar)

/-- Source pattern for uri-template: textually identical to
`uri_pattern` in the source. -/
def uri_template_pattern : Rx := Rx.plus (Rx.cls isUriChar)

/-- Source pattern `^/[^/]+(?:/[^/]+)*$`. -/
def json_pointer_pattern : Rx :=
  Rx.seqs [Rx.chr '/', Rx.plus (Rx.cls isNonSlashChar),
    Rx.star (Rx.seq (Rx.chr '/') (Rx.plus (Rx.cls isNonSlashChar)))]

/-- Source pattern `^[^/]+(?:/[^/]+)*$`. -/
def relative_json_pointer_pattern : Rx :=
  Rx.seq (Rx.plus (Rx.cls isNonSlashChar))
    (Rx.star (Rx.seq (Rx.chr '/') (Rx.plus (Rx.cls isNonSlashChar))))

/-- Source pattern `.*`: the unanchored catch-all. -/
def regex_pattern : Rx := Rx.star (Rx.cls isAnyChar)

/-- Semantics of `p.match(s)` for the double-anchored patterns: a whole-string match. -/
def pmatch (r : Rx) (s : String) : Bool := Rx.accepts r s.data

/-- A JSON value as decoded by the Python `json.loads`: `None`, `bool`,
`int`, `float`, `str`, `list` or `dict` (insertion-ordered association
list).  The numeric literal carried by `float` is its `repr`; the
inference core never inspects it. -/
inductive Json where
  | null : Json
  | bool (b : Bool) : Json
  | int (n : Int) : Json
  | float (lit : String) : Json
  | str (s : String) : Json
  | arr (xs : List Json) : Json
  | obj (kvs : List (String × Json)) : Json

/-- Source function `type_name`: `type(obj).__name__.lower()`.  The Python
runtime class names lower to `nonetype`, `bool`, `int`, `float`, `str`,
`list` and `dict`. -/
def type_name : Json → String
  | .null => "nonetype"
  | .bool _ => "bool"
  | .int _ => "int"
  | .float _ => "float"
  | .str _ => "str"
  | .arr _ => "list"
  | .obj _ => "dict"

/-- Source function `match_data_type`: the ordered first-match cascade over
the compiled patterns.  Every tag string is non-empty, so the `Option`
result mirrors Python truthiness exactly: `none` is falsy, every returned
tag is truthy. -/
def match_data_type (data : String) : Option String :=
  if pmatch date_time_pattern data then some "date-time"
  else if pmatch time_pattern data then some "time"
  else if pmatch date_pattern data then some "date"
  else if pmatch duration_pattern data then some "duration"
  else if pmatch email_pattern data then some "email"
  else if pmatch idn_email_pattern data then some "idn-email"
  else if pmatch ipv4_pattern data then some "ipv4"
  else if pmatch ipv6_pattern data then some "ipv6"
  else if pmatch uuid_pattern data then some "uuid"
  else if pmatch uri_pattern data then some "uri"
  else if pmatch uri_reference_pattern data then some "uri-reference"
  else if pmatch iri_pattern data then some "iri"
  else if pmatch iri_reference_pattern data then some "iri-reference"
  else if pmatch uri_template_pattern data then some "uri-template"
  else if pmatch json_pointer_pattern data then some "json-pointer"
  else if pmatch relative_json_pointer_pattern data then some "relative-json-pointer"
  else if Rx.matchesStart regex_pattern data.data then some "regex"
  else none

/-- The optional `pattern` entry attached to a string-typed property:
present exactly when `match_data_type` returns a (truthy) tag. -/
def patternField (s : String) : List (String × Json) :=
  match match_data_type s with
  | some p => [("pattern", Json.str p)]
  | none => []

mutual

/-- Source function `generate_schema`.  A non-dict non-list value returns
the bare `type_name` string; a list maps `generate_schema` over every
element; a dict builds the object schema with a per-key property
schema. -/
def generate_schema : Json → Json
  | .arr xs => .arr (genList xs)
  | .obj kvs =>
      .obj [("type", Json.str "object"), ("properties", Json.obj (genProps kvs))]
  | v => .str (type_name v)

/-- The list comprehension of the top-level array branch of
`generate_schema`: one recursive call per element, in order. -/
def genList : List Json → List Json
  | [] => []
  | x :: xs => generate_schema x :: genList xs

/-- The loop of `generate_schema` over the key/value pairs of a dict:
each key is kept, in order, and mapped to its property schema. -/
def genProps : List (String × Json) → List (String × Json)
  | [] => []
  | (k, v) :: rest => (k, propSchema v) :: genProps rest

/-- The per-value branch of the dict loop of `generate_schema`: nested
dicts recurse, a non-empty list samples only its first element, an empty
list gets no items entry, and any other value becomes a type entry plus,
for strings, the optional pattern entry. -/
def propSchema : Json → Json
  | .obj kvs =>
      .obj [("type", Json.str "object"), ("properties", Json.obj (genProps kvs))]
  | .arr [] => .obj [("type", Json.str "array")]
  | .arr (x :: _) =>
      .obj [("type", Json.str "array"), ("items", generate_schema x)]
  | .str s => .obj (("type", Json.str (type_name (.str s))) :: patternField s)
  | v => .obj [("type", Json.str (type_name v))]

end

/-- A run of `n` spaces, for the two-space indentation of `json.dumps`. -/
def spaces (n : Nat) : String := String.mk (List.replicate n ' ')

/-- One lower-case hexadecimal digit. -/
def hexDigitChar (n : Nat) : Char :=
  if n < 10 then Char.ofNat (48 + n) else Char.ofNat (87 + n)

/-- Four lower-case hexadecimal digits. -/
def hex4 (n : Nat) : String :=
  String.mk [hexDigitChar (n / 4096 % 16), hexDigitChar (n / 256 % 16),
    hexDigitChar (n / 16 % 16), hexDigitChar (n % 16)]

/-- The escaping of one character performed by `json.dumps` with its
default `ensure_ascii=True`: short escapes for the common control
characters, `\uXXXX` (with surrogate pairs beyond the basic plane) for the
other control and all non-ASCII characters. -/
def escapeChar (c : Char) : String :=
  if c == Char.ofNat 34 then "\\\""
  else if c == '\\' then "\\\\"
  else if c == '\n' then "\\n"
  else if c == '\t' then "\\t"
  else if c == '\r' then "\\r"
  else if c.toNat == 8 then "\\b"
  else if c.toNat == 12 then "\\f"
  else if c.toNat < 32 || 126 < c.toNat then
    if c.toNat < 65536 then "\\u" ++ hex4 c.toNat
    else "\\u" ++ hex4 (55296 + (c.toNat - 65536) / 1024) ++
         "\\u" ++ hex4 (56320 + (c.toNat - 65536) % 1024)
  else String.mk [c]

/-- A JSON string literal as produced by `json.dumps`. -/
def quoteJson (s : String) : String :=
  "\"" ++ String.join (s.data.map escapeChar) ++ "\""

mutual

/-- Embedding of `json.dumps(j, indent=2)` at a given current indentation:
the Python pretty printer with two-space indentation and the comma and
colon-space separators that an `indent` argument selects. -/
def dumps (ind : Nat) : Json → String
  | .null => "null"
  | .bool true => "true"
  | .bool false => "false"
  | .int n => toString n
  | .float lit => lit
  | .str s => quoteJson s
  | .arr [] => "[]"
  | .arr (x :: xs) => "[\n" ++ dumpsItems (ind + 2) x xs ++ "\n" ++ spaces ind ++ "]"
  | .obj [] => "\x7b\x7d"
  | .obj (kv :: kvs) =>
      "\x7b\n" ++ dumpsEntries (ind + 2) kv kvs ++ "\n" ++ spaces ind ++ "\x7d"
termination_by j => sizeOf j

/-- The comma-and-newline separated items of a non-empty array. -/
def dumpsItems (ind : Nat) (x : Json) : List Json → String
  | [] => spaces ind ++ dumps ind x
  | y :: ys => spaces ind ++ dumps ind x ++ ",\n" ++ dumpsItems ind y ys
termination_by l => sizeOf x + sizeOf l

/-- The comma-and-newline separated entries of a non-empty object. -/
def dumpsEntries (ind : Nat) (kv : String × Json) : List (String × Json) → String
  | [] => spaces ind ++ quoteJson kv.1 ++ ": " ++ dumps ind kv.2
  | e :: es =>
      spaces ind ++ quoteJson kv.1 ++ ": " ++ dumps ind kv.2 ++ ",\n" ++
        dumpsEntries ind e es
termination_by l => sizeOf kv + sizeOf l
decreasing_by
all_goals (obtain ⟨a, b⟩ := kv; simp_wf; omega)

end

/-- Source function `generate_schema_text`: `json.dumps(json_object, indent=2)`. -/
def generate_schema_text (json_object : Json) : String := dumps 0 json_object

/-! ## Helper lemmas -/

/-- The catch-all `regex_pattern` is a starred expression, hence nullable,
so the start-anchored `re.match` succeeds on every input. -/
theorem regex_matchesStart (cs : List Char) :
    Rx.matchesStart regex_pattern cs = true := by
  cases cs <;> rfl

/-- A conditional whose positive branch is `some` keeps a `some`-producing
fallback `some`-producing. -/
theorem isSome_ite {α : Type} (c : Prop) [Decidable c] (a : α) (o : Option α)
    (h : o.isSome = true) : (if c then some a else o).isSome = true := by
  by_cases hc : c
  · rw [if_pos hc]; rfl
  · rw [if_neg hc]; exact h

/-- The classifier cascade never falls through to `None`: its final guard
is the always-successful catch-all. -/
theorem match_data_type_isSome (s : String) :
    (match_data_type s).isSome = true := by
  unfold match_data_type
  iterate 16 refine isSome_ite _ _ _ ?_
  rw [if_pos (regex_matchesStart s.data)]
  rfl

/-- Lookup commutes with `genProps`: every key is kept and its value is
mapped through `propSchema`. -/
theorem genProps_lookup (k : String) (v : Json) :
    ∀ kvs : List (String × Json), kvs.lookup k = some v →
      (genProps kvs).lookup k = some (propSchema v)
  | [], h => by simp [List.lookup] at h
  | (a, b) :: tl, h => by
      rw [genProps, List.lookup]
      rw [List.lookup] at h
      by_cases hk : (k == a) = true
      · simp only [hk] at h ⊢
        rw [Option.some_inj.mp h]
      · simp only [Bool.not_eq_true] at hk
        simp only [hk] at h ⊢
        exact genProps_lookup k v tl h

/-- The function `genProps` preserves the key sequence of its input, in order. -/
theorem genProps_keys (kvs : List (String × Json)) :
    (genProps kvs).map Prod.fst = kvs.map Prod.fst := by
  induction kvs with
  | nil => rfl
  | cons hd tl ih =>
      obtain ⟨a, b⟩ := hd
      simp [genProps, ih]

/-- The top-level array branch is exactly an element-wise map of
`generate_schema`. -/
theorem genList_eq_map (xs : List Json) :
    genList xs = xs.map generate_schema := by
  induction xs with
  | nil => rfl
  | cons x tl ih => simp [genList, ih]

/-! ## Claims -/

/-- C1, counterexample: on the object with id 1 and name Alice, the schema
is not the one the claim states, because the name property does carry a
pattern entry: the string Alice falls through the first nine matchers and
is accepted by the broad URI matcher, so the classifier is not the
identity-free catch-all the claim assumed. -/
theorem claim_C1_counterexample :
    generate_schema (Json.obj [("id", Json.int 1), ("name", Json.str "Alice")]) ≠
      Json.obj [("type", Json.str "object"), ("properties", Json.obj
        [("id", Json.obj [("type", Json.str "int")]),
         ("name", Json.obj [("type", Json.str "str")])])] := by
  have h : match_data_type "Alice" = some "uri" := by decide
  simp [generate_schema, genProps, propSchema, patternField, type_name, h]

/-- C1, amended: on the object with id 1 and name Alice, infer yields an
object schema whose id property has type int and whose name property has
type str together with the pattern tag uri, the tag of the first matcher
in the fixed list that accepts Alice. -/
theorem claim_C1_amended :
    generate_schema (Json.obj [("id", Json.int 1), ("name", Json.str "Alice")]) =
      Json.obj [("type", Json.str "object"), ("properties", Json.obj
        [("id", Json.obj [("type", Json.str "int")]),
         ("name", Json.obj [("type", Json.str "str"),
            ("pattern", Json.str "uri")])])] := by
  have h : match_data_type "Alice" = some "uri" := by decide
  simp [generate_schema, genProps, propSchema, patternField, type_name, h]

/-- C2, counterexample: for a top-level JSON null, infer does not return
the string null: the Python runtime class of None is NoneType, which
lowers to the string nonetype. -/
theorem claim_C2_counterexample :
    generate_schema Json.null ≠ Json.str "null" := by
  intro hEq
  have h2 : Json.str "nonetype" = Json.str "null" := hEq
  injection h2 with hs
  exact absurd hs (by decide)

/-- C2, amended: for a top-level JSON null, infer returns the bare
lower-case type-name string nonetype (the lowering of the Python class
name NoneType), not wrapped in a Primitive node. -/
theorem claim_C2_amended :
    generate_schema Json.null = Json.str "nonetype" := rfl

/-- C3: for every non-empty string, the classifier returns some format
tag, never a no-match result, because the final catch-all pattern always
succeeds.  (The hypothesis is not even needed: the catch-all accepts the
empty string as well.) -/
theorem claim_C3 (s : String) (_h : s ≠ "") :
    (match_data_type s).isSome = true :=
  match_data_type_isSome s

/-- C3, witness at the concrete non-empty string Alice. -/
theorem claim_C3_witness :
    ("Alice" : String) ≠ "" ∧ (match_data_type "Alice").isSome = true :=
  ⟨by decide, claim_C3 "Alice" (by decide)⟩

/-- C4: the classifier returns the tag uuid on the canonical example
UUID; the uuid matcher fires before the later uri matcher, which also
accepts this string. -/
theorem claim_C4 :
    match_data_type "550e8400-e29b-41d4-a716-446655440000" = some "uuid" ∧
    pmatch uri_pattern "550e8400-e29b-41d4-a716-446655440000" = true := by
  constructor
  · decide
  · decide

/-- C5: a non-empty array stored under a key of an object is inferred as
an array schema whose items entry is the inference of the first element
alone; the remaining elements do not influence the result, which mentions
only the head. -/
theorem claim_C5 (kvs : List (String × Json)) (k : String) (x : Json)
    (xs : List Json) (h : kvs.lookup k = some (Json.arr (x :: xs))) :
    generate_schema (Json.obj kvs) =
      Json.obj [("type", Json.str "object"),
        ("properties", Json.obj (genProps kvs))] ∧
    (genProps kvs).lookup k =
      some (Json.obj [("type", Json.str "array"),
        ("items", generate_schema x)]) :=
  ⟨rfl, genProps_lookup k _ kvs h⟩

/-- C5, witness at the end-to-end scenario with a heterogeneous array:
the second element, whose x is a string, leaves no trace in the result. -/
theorem claim_C5_witness :
    (([("items", Json.arr [Json.obj [("x", Json.int 1)],
        Json.obj [("x", Json.str "oops")]])] :
      List (String × Json)).lookup "items" =
        some (Json.arr [Json.obj [("x", Json.int 1)],
          Json.obj [("x", Json.str "oops")]])) ∧
    (generate_schema (Json.obj [("items", Json.arr [Json.obj [("x", Json.int 1)],
        Json.obj [("x", Json.str "oops")]])]) =
      Json.obj [("type", Json.str "object"),
        ("properties", Json.obj (genProps [("items",
          Json.arr [Json.obj [("x", Json.int 1)],
            Json.obj [("x", Json.str "oops")]])]))] ∧
    (genProps [("items", Json.arr [Json.obj [("x", Json.int 1)],
        Json.obj [("x", Json.str "oops")]])]).lookup "items" =
      some (Json.obj [("type", Json.str "array"),
        ("items", generate_schema (Json.obj [("x", Json.int 1)]))])) :=
  ⟨rfl, claim_C5 _ "items" _ _ rfl⟩

/-- C6: inferring an object yields an object schema whose properties
mapping has exactly the keys of the input, in the order of the input. -/
theorem claim_C6 (kvs : List (String × Json)) :
    generate_schema (Json.obj kvs) =
      Json.obj [("type", Json.str "object"),
        ("properties", Json.obj (genProps kvs))] ∧
    (genProps kvs).map Prod.fst = kvs.map Prod.fst :=
  ⟨rfl, genProps_keys kvs⟩

/-- C7: a top-level array is inferred element-wise: the result is the
plain ordered sequence of the inferences of every element, one per
element, unlike the nested-property case, which samples only the head. -/
theorem claim_C7 (xs : List Json) :
    generate_schema (Json.arr xs) = Json.arr (xs.map generate_schema) ∧
    (xs.map generate_schema).length = xs.length := by
  constructor
  · show Json.arr (genList xs) = _
    rw [genList_eq_map]
  · exact List.length_map xs generate_schema

/-- C8: rendering the inferred schema is deterministic: two runs on equal
inputs produce the same output string, as the whole pipeline is a pure
function of its argument. -/
theorem claim_C8 (v₁ v₂ : Json) (h : v₁ = v₂) :
    generate_schema_text (generate_schema v₁) =
      generate_schema_text (generate_schema v₂) := by
  rw [h]

/-- C8, witness at a concrete object. -/
theorem claim_C8_witness :
    (Json.obj [("id", Json.int 1)] = Json.obj [("id", Json.int 1)]) ∧
    generate_schema_text (generate_schema (Json.obj [("id", Json.int 1)])) =
      generate_schema_text (generate_schema (Json.obj [("id", Json.int 1)])) :=
  ⟨rfl, claim_C8 _ _ rfl⟩

/-- C9: every object property holding a string is given a schema that
carries a pattern entry, whatever the content of the string, because the
classifier always returns a truthy tag. -/
theorem claim_C9 (kvs : List (String × Json)) (k : String) (s : String)
    (h : kvs.lookup k = some (Json.str s)) :
    generate_schema (Json.obj kvs) =
      Json.obj [("type", Json.str "object"),
        ("properties", Json.obj (genProps kvs))] ∧
    ∃ tag, (genProps kvs).lookup k =
      some (Json.obj [("type", Json.str "str"), ("pattern", Json.str tag)]) := by
  refine ⟨rfl, ?_⟩
  obtain ⟨tag, htag⟩ := Option.isSome_iff_exists.mp (match_data_type_isSome s)
  refine ⟨tag, ?_⟩
  rw [genProps_lookup k (Json.str s) kvs h]
  simp [propSchema, patternField, htag, type_name]

/-- C9, witness at an object whose name property is the empty string: even
it receives a pattern entry. -/
theorem claim_C9_witness :
    (([("name", Json.str "")] : List (String × Json)).lookup "name" =
      some (Json.str "")) ∧
    (generate_schema (Json.obj [("name", Json.str "")]) =
      Json.obj [("type", Json.str "object"),
        ("properties", Json.obj (genProps [("name", Json.str "")]))] ∧
    ∃ tag, (genProps [("name", Json.str "")]).lookup "name" =
      some (Json.obj [("type", Json.str "str"), ("pattern", Json.str tag)])) :=
  ⟨rfl, claim_C9 _ "name" "" rfl⟩

/-- C10: the classifier maps the empty string to the tag regex: every
earlier matcher needs at least one character, while the catch-all accepts
the empty string. -/
theorem claim_C10 : match_data_type "" = some "regex" := by decide

end Castor
